import Mathlib

/-!
Verification of the terminal session bridge in `server.py` (rdock).

The development shallowly embeds the bridge's data model and operations:

* `JVal` models decoded JSON values (the control messages are JSON objects).
* `OS` models the operating-system facts the bridge touches: the set of open
  file descriptors, the pseudo-terminal window size, the sequence of byte
  strings written to the pty master (the "process-side input"), and the set
  of live child processes.
* `WebTerminal` mirrors the Python class of the same name: the fields
  `master_fd`, `pid` and `session_name` (Python `None` becomes `Option`).
  Python truthiness tests such as `if self.master_fd:` are translated as
  "is `some fd` with `fd ≠ 0`".
* Fallible OS calls (`os.close`, `os.write`, `fcntl.ioctl`, `struct.pack`,
  `msg.json()`) return `Except PyErr _`; an uncaught Python exception is an
  `.error` value.

External collaborators (the JSON parser, `shutil.which`, `tmux`) are passed
in as explicit inputs, mirroring the spec's treatment of them as external
capabilities.
-/

namespace RDock

/-- Decoded JSON values.  `jnum` covers the integer literals that occur in
the bridge's control messages; objects are association lists of fields. -/
inductive JVal : Type where
  | jnull : JVal
  | jbool : Bool → JVal
  | jnum : Int → JVal
  | jstr : String → JVal
  | jarr : List JVal → JVal
  | jobj : List (String × JVal) → JVal

/-- Python exceptions that the modelled code can raise. -/
inductive PyErr : Type where
  | osError : PyErr
  | structError : PyErr
  | jsonDecodeError : PyErr
  | attributeError : PyErr
deriving DecidableEq, Repr

/-- The OS facts the bridge manipulates: open fd table, the single pty's
window size `(rows, cols)`, the log of strings written to the pty master
(process-side input), and the set of live child pids. -/
structure OS : Type where
  openFds : List Int
  winsize : Int × Int
  writes : List String
  procs : List Int
deriving DecidableEq, Repr

/-- `os.close(fd)`: closing an open descriptor removes it from the fd
table; closing an already-closed descriptor raises `OSError`. -/
def osClose (os : OS) (fd : Int) : Except PyErr OS :=
  if fd ∈ os.openFds then .ok { os with openFds := os.openFds.erase fd }
  else .error .osError

/-- `fcntl.ioctl(fd, TIOCSWINSZ, winsize)`: sets the pty window size;
raises `OSError` on a closed descriptor. -/
def ioctlSetWinsize (os : OS) (fd : Int) (rows cols : Int) : Except PyErr OS :=
  if fd ∈ os.openFds then .ok { os with winsize := (rows, cols) }
  else .error .osError

/-- `os.write(fd, data)`: appends to the pty input log; raises `OSError`
on a closed descriptor. -/
def osWrite (os : OS) (fd : Int) (data : String) : Except PyErr OS :=
  if fd ∈ os.openFds then .ok { os with writes := os.writes ++ [data] }
  else .error .osError

/-- The combined effect of `os.kill(pid, SIGTERM); os.waitpid(pid, 0)`:
the child is terminated and reaped.  In `WebTerminal.close` this pair is
wrapped in `try/except: pass`, so it never raises; erasing an absent pid
is a no-op, matching the swallowed `ProcessLookupError`. -/
def osReap (os : OS) (p : Int) : OS :=
  { os with procs := os.procs.erase p }

/-- `struct.pack('H', v)`: accepts an integer in `[0, 65535]` and raises
`struct.error` otherwise (non-integer JSON values also raise). -/
def packH : JVal → Except PyErr Int
  | .jnum n => if 0 ≤ n ∧ n ≤ 65535 then .ok n else .error .structError
  | _ => .error .attributeError

/-- `data.encode()`: only strings have `.encode`; any other JSON value
reaching `write` raises `AttributeError`. -/
def encodeStr : JVal → Except PyErr String
  | .jstr s => .ok s
  | _ => .error .attributeError

/-- The `WebTerminal` object: `master_fd`, `pid`, `session_name`
(`None` = `none`).  Methods never reassign these fields. -/
structure WebTerminal : Type where
  master_fd : Option Int
  pid : Option Int
  session_name : Option String
deriving DecidableEq, Repr

/-- `WebTerminal.resize(rows, cols)`: under `if self.master_fd:` it packs
`(rows, cols, 0, 0)` with `struct.pack('HHHH', ...)` and applies it via
`ioctl(TIOCSWINSZ)`.  There is no validation or clamping of the values. -/
def WebTerminal.resize (t : WebTerminal) (rows cols : JVal) (os : OS) :
    Except PyErr OS :=
  match t.master_fd with
  | some fd =>
    if fd ≠ 0 then
      match packH rows, packH cols with
      | .ok r, .ok c => ioctlSetWinsize os fd r c
      | .error e, _ => .error e
      | .ok _, .error e => .error e
    else .ok os
  | none => .ok os

/-- `WebTerminal.write(data)`: under `if self.master_fd:` it runs
`os.write(self.master_fd, data.encode())`. -/
def WebTerminal.write (t : WebTerminal) (data : JVal) (os : OS) :
    Except PyErr OS :=
  match t.master_fd with
  | some fd =>
    if fd ≠ 0 then
      match encodeStr data with
      | .ok s => osWrite os fd s
      | .error e => .error e
    else .ok os
  | none => .ok os

/-- `WebTerminal.read()`: under `if self.master_fd:` it attempts
`os.read(self.master_fd, 4096).decode('utf-8', errors='replace')`,
catching `OSError`/`BlockingIOError` to `None`; with a falsy `master_fd`
it returns `None`.  `ioResult` is the outcome of the underlying
`os.read` (decoding with `errors='replace'` never fails). -/
def WebTerminal.read (t : WebTerminal) (ioResult : Except PyErr String) :
    Option String :=
  match t.master_fd with
  | some fd =>
    if fd ≠ 0 then
      match ioResult with
      | .ok s => some s
      | .error _ => none
    else none
  | none => none

/-- First half of `WebTerminal.close`: `if self.master_fd: os.close(self.master_fd)`.
The exception from `os.close` is NOT caught and propagates. -/
def closeFdStep (t : WebTerminal) (os : OS) : Except PyErr OS :=
  match t.master_fd with
  | some fd => if fd ≠ 0 then osClose os fd else .ok os
  | none => .ok os

/-- Second half of `WebTerminal.close`: `if self.pid:` followed by
`try: os.kill(...); os.waitpid(...) except: pass` — total, never raises. -/
def reapStep (t : WebTerminal) (os : OS) : OS :=
  match t.pid with
  | some p => if p ≠ 0 then osReap os p else os
  | none => os

/-- `WebTerminal.close()`: closes the master descriptor (uncaught on
failure), then terminates and reaps the child (exception-guarded).
Note that the method never sets `self.master_fd` or `self.pid` to `None`,
so a repeated call re-runs both steps on the same values. -/
def WebTerminal.close (t : WebTerminal) (os : OS) : Except PyErr OS :=
  match closeFdStep t os with
  | .ok os1 => .ok (reapStep t os1)
  | .error e => .error e

/-- `s.startswith(c)` for the one-character prefix used on line 235: the
opening curly brace, whether the frame text begins with it. -/
def startsWithBrace (s : String) : Bool :=
  match s.data with
  | [] => false
  | c :: _ => c = '\x7b'

/-- An inbound WebSocket TEXT frame: `raw` is `msg.data`, and `json` is
the outcome the external JSON parser would give for it when `msg.json()`
is attempted (`none` = `json.JSONDecodeError`).  A successfully parsed
frame that starts with the opening brace is always a JSON object, given
as its field list. -/
structure Msg : Type where
  raw : String
  json : Option (List (String × JVal))

/-- Line 235 of `terminal_handler`:
`data = msg.json() if msg.data.startswith('\x7b') else \x7b'type': 'input', 'data': msg.data\x7d`.
A raw (non-brace) frame is wrapped as an implicit input message; a brace
frame is parsed, and a parse failure raises. -/
def decode_msg (m : Msg) : Except PyErr (List (String × JVal)) :=
  if startsWithBrace m.raw then
    match m.json with
    | some obj => .ok obj
    | none => .error .jsonDecodeError
  else
    .ok [("type", JVal.jstr "input"), ("data", JVal.jstr m.raw)]

/-- `data.get(k, d)` on the decoded object. -/
def jGetD (data : List (String × JVal)) (k : String) (d : JVal) : JVal :=
  match data.lookup k with
  | some v => v
  | none => d

/-- The string value of the object's `type` field, when the field is
present and is a string; `data.get('type') == s` in Python is true
exactly when this is `some s`. -/
def msgType (data : List (String × JVal)) : Option String :=
  match data.lookup "type" with
  | some (JVal.jstr s) => some s
  | _ => none

/-- The dispatch on one inbound TEXT frame in `terminal_handler`
(lines 235-243), with `g` = `is_gpustat`:
resize messages call `terminal.resize(data.get('rows', 24), data.get('cols', 80))`
with no mode guard; input messages call `terminal.write(data.get('data', ''))`
only when not gpustat; any other decoded object falls through to
`terminal.write(msg.data)` when not gpustat; otherwise nothing happens. -/
def terminal_handler_step (g : Bool) (t : WebTerminal) (m : Msg) (os : OS) :
    Except PyErr OS :=
  match decode_msg m with
  | .error e => .error e
  | .ok data =>
    if msgType data = some "resize" then
      t.resize (jGetD data "rows" (JVal.jnum 24)) (jGetD data "cols" (JVal.jnum 80)) os
    else if msgType data = some "input" ∧ g = false then
      t.write (jGetD data "data" (JVal.jstr "")) os
    else if g = false then
      t.write (JVal.jstr m.raw) os
    else
      .ok os

/-- The `async for msg in ws` intake loop: frames are handled in arrival
order; an uncaught exception ends the loop (the handler then runs its
`finally` block), leaving the OS state as it was when the exception was
raised (each step's effects are atomic: an erroring step has none). -/
def terminal_handler_msgs (g : Bool) (t : WebTerminal) :
    List Msg → OS → OS
  | [], os => os
  | m :: ms, os =>
    match terminal_handler_step g t m os with
    | .ok os2 => terminal_handler_msgs g t ms os2
    | .error _ => os

/-- The `read_loop` coroutine, unrolled by tick: at tick `k` it first
tests `ws.closed` (`wsClosed k`), then takes `terminal.read()`'s result
(`reads k`), sends it on the WebSocket only if it is truthy (a nonempty
string), sleeps, and repeats.  `read_loop_run n = (alive, sent)` gives
whether the loop is still running after `n` ticks and the frames sent. -/
def read_loop_run (wsClosed : Nat → Bool) (reads : Nat → Option String) :
    Nat → Bool × List String
  | 0 => (true, [])
  | n + 1 =>
    match read_loop_run wsClosed reads n with
    | (false, sent) => (false, sent)
    | (true, sent) =>
      if wsClosed n then (false, sent)
      else
        match reads n with
        | some s => if s = "" then (true, sent) else (true, sent ++ [s])
        | none => (true, sent)

/-- What a forked child ends up doing: replacing its image via
`os.execvpe`, or exiting with a status after printing a diagnostic. -/
inductive ChildAction : Type where
  | execvpe : String → List String → ChildAction
  | exited : Int → String → ChildAction
deriving DecidableEq, Repr

/-- The child branch of `WebTerminal.spawn` (lines 115-138).
`tmux_available` is the result of `check_tmux_available()` (i.e.
`shutil.which('tmux') is not None`), and `has_session name` is whether
`tmux has-session -t name` returned 0.  Python's
`if session_name and check_tmux_available():` is truthy only for a
present, nonempty name. -/
def spawn_child_exec (shell : String) (session_name : Option String)
    (tmux_available : Bool) (has_session : String → Bool) : ChildAction :=
  match session_name with
  | some name =>
    if name ≠ "" ∧ tmux_available = true then
      if has_session name then
        ChildAction.execvpe "tmux" ["tmux", "attach-session", "-t", name]
      else
        ChildAction.execvpe "tmux" ["tmux", "new-session", "-s", name]
    else
      ChildAction.execvpe shell [shell]
  | none => ChildAction.execvpe shell [shell]

/-- The child branch of `WebTerminal.spawn_command` (lines 148-160).
`which` is `shutil.which`: when it resolves the command the child execs
the resolved path, otherwise it prints the diagnostic and runs
`os._exit(1)`. -/
def spawn_command_child (command : String) (args : List String)
    (which : String → Option String) : ChildAction :=
  match which command with
  | some cmd_path => ChildAction.execvpe cmd_path (command :: args)
  | none =>
    ChildAction.exited 1 ("Error: " ++ command ++ " not found. Install it first.")

/-- The filesystem conditions `load_server_state` can meet: state file
absent, `open` raising (unreadable), `json.load` raising (invalid JSON),
or a successful parse yielding a JSON value. -/
inductive FsCond : Type where
  | absent : FsCond
  | openFails : FsCond
  | parseFails : FsCond
  | parsed : JVal → FsCond

/-- The literal default state on line 85 of `server.py`. -/
def defaultState : JVal :=
  JVal.jobj
    [("tabs", JVal.jarr []), ("activeTabId", JVal.jnull),
     ("tabCounter", JVal.jnum 0), ("terminalCounter", JVal.jnum 0),
     ("vscodeCounter", JVal.jnum 0), ("recentWorkspaces", JVal.jarr [])]

/-- `load_server_state()`: if the file exists and loads, its contents are
returned; the absent-file path falls through to the default, and any
exception from `open`/`json.load` is caught (`except Exception`), printed
and the default returned.  The function is total: it returns `JVal`, not
`Except`. -/
def load_server_state : FsCond → JVal
  | .absent => defaultState
  | .openFails => defaultState
  | .parseFails => defaultState
  | .parsed j => j

/-! ## Helper lemmas -/

theorem nodup_not_mem_erase (a : Int) (l : List Int) (hl : l.Nodup) :
    a ∉ l.erase a := by
  induction l with
  | nil => simp
  | cons b bs ih =>
    rcases List.nodup_cons.mp hl with ⟨hb, hbs⟩
    by_cases hba : b = a
    · subst hba
      rw [List.erase_cons_head]
      exact hb
    · rw [List.erase_cons_tail]
      · intro hmem
        rcases List.mem_cons.mp hmem with h | h
        · exact hba h.symm
        · exact ih hbs h
      · simp [hba]

theorem reapStep_openFds (t : WebTerminal) (os : OS) :
    (reapStep t os).openFds = os.openFds := by
  unfold reapStep
  cases t.pid with
  | none => rfl
  | some p =>
    by_cases hp : p = 0 <;> simp [hp, osReap]

theorem resize_ok_writes (t : WebTerminal) (r c : JVal) (os os2 : OS)
    (h : t.resize r c os = .ok os2) : os2.writes = os.writes := by
  unfold WebTerminal.resize at h
  cases hfd : t.master_fd with
  | none =>
    rw [hfd] at h
    cases h
    rfl
  | some fd =>
    rw [hfd] at h
    by_cases hz : fd = 0
    · simp [hz] at h
      rw [← h]
    · simp [hz] at h
      cases hr : packH r with
      | error e => rw [hr] at h; cases h
      | ok rv =>
        cases hc : packH c with
        | error e => rw [hr, hc] at h; cases h
        | ok cv =>
          rw [hr, hc] at h
          unfold ioctlSetWinsize at h
          by_cases hmem : fd ∈ os.openFds
          · simp [hmem] at h
            rw [← h]
          · simp [hmem] at h

theorem monitor_step_writes (t : WebTerminal) (m : Msg) (os os2 : OS)
    (h : terminal_handler_step true t m os = .ok os2) :
    os2.writes = os.writes := by
  unfold terminal_handler_step at h
  cases hd : decode_msg m with
  | error e => rw [hd] at h; cases h
  | ok data =>
    rw [hd] at h
    dsimp only at h
    by_cases hrz : msgType data = some "resize"
    · rw [if_pos hrz] at h
      exact resize_ok_writes _ _ _ _ _ h
    · rw [if_neg hrz] at h
      simp at h
      subst h
      rfl

/-! ## Claims -/

/-- Claim C1, counterexample: on a terminal whose master descriptor 5 is
open and whose child 100 is alive, the first `close()` succeeds and the
second raises `OSError`: `close` never clears `master_fd`, so the second
call re-runs `os.close(5)` on the already-closed descriptor.  The claim
that the second invocation is a no-op that must not error is false. -/
theorem close_twice_errors_cex :
    WebTerminal.close ⟨some 5, some 100, none⟩ ⟨[5], (24, 80), [], [100]⟩ =
      .ok ⟨[], (24, 80), [], []⟩ ∧
    WebTerminal.close ⟨some 5, some 100, none⟩ ⟨[], (24, 80), [], []⟩ =
      .error PyErr.osError :=
  ⟨rfl, rfl⟩

/-- Claim C1 (amended): `WebTerminal.close` is not idempotent.  A first
`close()` on an open master descriptor removes it from the fd table, and
because the method leaves `self.master_fd` set, a second `close()` calls
`os.close` on the now-closed descriptor and raises `OSError` (only the
`kill`/`waitpid` step is exception-guarded). -/
theorem close_not_idempotent (t : WebTerminal) (fd : Int) (os os1 : OS)
    (hfd : t.master_fd = some fd) (hfd0 : fd ≠ 0)
    (hopen : fd ∈ os.openFds) (hnd : os.openFds.Nodup)
    (h1 : t.close os = .ok os1) :
    fd ∉ os1.openFds ∧ t.close os1 = .error PyErr.osError := by
  have hclose : closeFdStep t os = .ok { os with openFds := os.openFds.erase fd } := by
    unfold closeFdStep osClose
    rw [hfd]
    simp [hfd0, hopen]
  have hos1 : os1 = reapStep t { os with openFds := os.openFds.erase fd } := by
    unfold WebTerminal.close at h1
    rw [hclose] at h1
    dsimp only at h1
    exact (Except.ok.inj h1).symm
  have hfds : os1.openFds = os.openFds.erase fd := by
    rw [hos1, reapStep_openFds]
  have hnot : fd ∉ os1.openFds := by
    rw [hfds]
    exact nodup_not_mem_erase fd os.openFds hnd
  refine ⟨hnot, ?_⟩
  unfold WebTerminal.close closeFdStep osClose
  rw [hfd]
  simp [hfd0, hnot]

/-- Claim C1, witness for the amended theorem at the concrete input of
descriptor 5 and pid 100. -/
theorem close_not_idempotent_witness :
    (5 : Int) ∉ (⟨[], (24, 80), [], []⟩ : OS).openFds ∧
    WebTerminal.close ⟨some 5, some 100, none⟩ ⟨[], (24, 80), [], []⟩ =
      .error PyErr.osError :=
  close_not_idempotent ⟨some 5, some 100, none⟩ 5
    ⟨[5], (24, 80), [], [100]⟩ ⟨[], (24, 80), [], []⟩
    rfl (by decide) (by decide) (by decide) rfl

/-- Claim C2, counterexample: on an Interactive (non-gpustat) connection,
the JSON message with unknown type `ping` is not ignored: the dispatch
falls through to `terminal.write(msg.data)` and the raw message text is
written to the process. -/
theorem unknown_type_written_cex :
    terminal_handler_step false ⟨some 5, some 100, none⟩
      ⟨"\x7b\"type\":\"ping\"\x7d", some [("type", JVal.jstr "ping")]⟩
      ⟨[5], (24, 80), [], [100]⟩ =
      .ok ⟨[5], (24, 80), ["\x7b\"type\":\"ping\"\x7d"], [100]⟩ :=
  rfl

/-- Claim C2 (amended): a decoded JSON message whose `type` is neither
`resize` nor `input` is ignored only on Monitor (gpustat) connections;
on Interactive connections it falls through to the raw-input branch and
its raw text is written to the process. -/
theorem unknown_type_dispatch (t : WebTerminal) (m : Msg)
    (data : List (String × JVal)) (os : OS)
    (hd : decode_msg m = .ok data)
    (hr : msgType data ≠ some "resize") (hi : msgType data ≠ some "input") :
    terminal_handler_step true t m os = .ok os ∧
    terminal_handler_step false t m os = t.write (JVal.jstr m.raw) os := by
  unfold terminal_handler_step
  rw [hd]
  dsimp only
  constructor
  · simp [hr, hi]
  · simp [hr, hi]

/-- Claim C2, witness for the amended theorem at a concrete
unknown-`type` message. -/
theorem unknown_type_dispatch_witness :
    terminal_handler_step true (⟨some 5, some 100, none⟩ : WebTerminal)
      ⟨"\x7b\"type\":\"status\"\x7d", some [("type", JVal.jstr "status")]⟩
      (⟨[5], (24, 80), [], [100]⟩ : OS) = .ok ⟨[5], (24, 80), [], [100]⟩ ∧
    terminal_handler_step false (⟨some 5, some 100, none⟩ : WebTerminal)
      ⟨"\x7b\"type\":\"status\"\x7d", some [("type", JVal.jstr "status")]⟩
      (⟨[5], (24, 80), [], [100]⟩ : OS) =
      WebTerminal.write ⟨some 5, some 100, none⟩
        (JVal.jstr "\x7b\"type\":\"status\"\x7d") ⟨[5], (24, 80), [], [100]⟩ :=
  unknown_type_dispatch ⟨some 5, some 100, none⟩
    ⟨"\x7b\"type\":\"status\"\x7d", some [("type", JVal.jstr "status")]⟩
    [("type", JVal.jstr "status")] ⟨[5], (24, 80), [], [100]⟩
    rfl (by decide) (by decide)

/-- Claim C3 (confirmed): on a Monitor (gpustat) connection, no sequence
of inbound frames — input envelopes, raw text frames, resize messages or
unknown messages — ever writes to the process: the pty input log is
unchanged after the whole intake loop. -/
theorem monitor_never_writes (t : WebTerminal) (msgs : List Msg) (os : OS) :
    (terminal_handler_msgs true t msgs os).writes = os.writes := by
  induction msgs generalizing os with
  | nil => rfl
  | cons m ms ih =>
    simp only [terminal_handler_msgs]
    cases h : terminal_handler_step true t m os with
    | error e => simp
    | ok os2 =>
      simp only
      exact (ih os2).trans (monitor_step_writes t m os os2 h)

/-- Claim C4, counterexample: with the WebSocket staying open, a terminal
whose every read reports end-of-file (the child has exited, `os.read`
yields the empty byte string) leaves the relay loop still running after
20 ticks, having sent nothing: EOF does not terminate the loop and does
not trigger teardown. -/
theorem eof_loop_continues_cex :
    read_loop_run (fun _ => false)
      (fun _ => WebTerminal.read ⟨some 5, some 100, none⟩ (.ok "")) 20 =
      (true, []) :=
  rfl

/-- Claim C4 (amended): EOF does not end the output relay loop.  While
the WebSocket is open, a loop whose reads all report EOF (`None` from a
caught `OSError`, or the empty string from an empty `os.read`) keeps
polling forever and sends nothing; the loop stops only when `ws.closed`
becomes true, after which the handler's `finally` performs teardown. -/
theorem eof_does_not_end_read_loop (wsClosed : Nat → Bool)
    (reads : Nat → Option String) (n : Nat)
    (hopen : ∀ k, k < n → wsClosed k = false)
    (heof : ∀ k, k < n → reads k = none ∨ reads k = some "") :
    read_loop_run wsClosed reads n = (true, []) := by
  induction n with
  | zero => rfl
  | succ n ih =>
    have hrun : read_loop_run wsClosed reads n = (true, []) :=
      ih (fun k hk => hopen k (Nat.lt_succ_of_lt hk))
         (fun k hk => heof k (Nat.lt_succ_of_lt hk))
    simp only [read_loop_run, hrun, hopen n (Nat.lt_succ_self n)]
    rcases heof n (Nat.lt_succ_self n) with h | h
    · simp [h]
    · simp [h]

/-- Claim C4, witness for the amended theorem: six ticks of EOF reads
with the channel open leave the loop running with nothing sent. -/
theorem eof_does_not_end_read_loop_witness :
    read_loop_run (fun _ => false) (fun _ => none) 6 = (true, []) :=
  eof_does_not_end_read_loop (fun _ => false) (fun _ => none) 6
    (fun _ _ => rfl) (fun _ _ => Or.inl rfl)

/-- Claim C5, counterexample: `resize(0, 80)` on an open master
descriptor is neither rejected nor clamped: the pty window size is set
to zero rows. -/
theorem resize_zero_rows_cex :
    WebTerminal.resize ⟨some 5, some 100, none⟩ (JVal.jnum 0) (JVal.jnum 80)
      ⟨[5], (24, 80), [], [100]⟩ =
      .ok ⟨[5], (0, 80), [], [100]⟩ :=
  rfl

/-- Claim C5 (amended): `WebTerminal.resize` performs no validation: any
integer rows/cols in the `struct.pack('H', _)` range `[0, 65535]`,
including 0, is applied verbatim as the pty window size. -/
theorem resize_applies_unvalidated (t : WebTerminal) (fd : Int)
    (rows cols : Int) (os : OS)
    (hfd : t.master_fd = some fd) (hfd0 : fd ≠ 0) (hopen : fd ∈ os.openFds)
    (hr : 0 ≤ rows ∧ rows ≤ 65535) (hc : 0 ≤ cols ∧ cols ≤ 65535) :
    t.resize (JVal.jnum rows) (JVal.jnum cols) os =
      .ok { os with winsize := (rows, cols) } := by
  unfold WebTerminal.resize
  rw [hfd]
  simp [hfd0, packH, hr.1, hr.2, hc.1, hc.2, ioctlSetWinsize, hopen]

/-- Claim C5, witness for the amended theorem: a zero-by-zero resize is
applied as given. -/
theorem resize_applies_unvalidated_witness :
    WebTerminal.resize ⟨some 7, some 100, none⟩ (JVal.jnum 0) (JVal.jnum 0)
      ⟨[7], (24, 80), [], [100]⟩ = .ok ⟨[7], (0, 0), [], [100]⟩ :=
  resize_applies_unvalidated ⟨some 7, some 100, none⟩ 7 0 0
    ⟨[7], (24, 80), [], [100]⟩ rfl (by decide) (by decide)
    (by decide) (by decide)

/-- Claim C6, counterexample: on a Monitor (gpustat) connection a resize
message is not ignored: the pty window size changes from `(24, 80)` to
the requested `(50, 120)`. -/
theorem monitor_resize_applied_cex :
    terminal_handler_step true ⟨some 5, some 100, none⟩
      ⟨"\x7b\"type\":\"resize\",\"rows\":50,\"cols\":120\x7d",
       some [("type", JVal.jstr "resize"), ("rows", JVal.jnum 50),
             ("cols", JVal.jnum 120)]⟩
      ⟨[5], (24, 80), [], [100]⟩ =
      .ok ⟨[5], (50, 120), [], [100]⟩ :=
  rfl

/-- Claim C6 (amended): the resize branch of `terminal_handler` is not
gated on the mode, so Monitor connections honor `resize` messages exactly
as Interactive ones do: the handler applies
`terminal.resize(data.get('rows', 24), data.get('cols', 80))` and the
gpustat and non-gpustat dispatches agree on resize messages. -/
theorem monitor_resize_honored (t : WebTerminal) (m : Msg)
    (data : List (String × JVal)) (os : OS)
    (hd : decode_msg m = .ok data) (hty : msgType data = some "resize") :
    terminal_handler_step true t m os =
      t.resize (jGetD data "rows" (JVal.jnum 24))
        (jGetD data "cols" (JVal.jnum 80)) os ∧
    terminal_handler_step true t m os = terminal_handler_step false t m os := by
  refine ⟨?_, ?_⟩ <;>
  · unfold terminal_handler_step
    rw [hd]
    dsimp only
    simp [hty]

/-- Claim C6, witness for the amended theorem at a concrete monitor-mode
resize message. -/
theorem monitor_resize_honored_witness :
    terminal_handler_step true (⟨some 9, some 100, none⟩ : WebTerminal)
      ⟨"\x7b\"type\":\"resize\",\"rows\":31,\"cols\":99\x7d",
       some [("type", JVal.jstr "resize"), ("rows", JVal.jnum 31),
             ("cols", JVal.jnum 99)]⟩
      (⟨[9], (24, 80), [], [100]⟩ : OS) =
      WebTerminal.resize ⟨some 9, some 100, none⟩ (JVal.jnum 31) (JVal.jnum 99)
        ⟨[9], (24, 80), [], [100]⟩ ∧
    terminal_handler_step true (⟨some 9, some 100, none⟩ : WebTerminal)
      ⟨"\x7b\"type\":\"resize\",\"rows\":31,\"cols\":99\x7d",
       some [("type", JVal.jstr "resize"), ("rows", JVal.jnum 31),
             ("cols", JVal.jnum 99)]⟩
      (⟨[9], (24, 80), [], [100]⟩ : OS) =
      terminal_handler_step false (⟨some 9, some 100, none⟩ : WebTerminal)
      ⟨"\x7b\"type\":\"resize\",\"rows\":31,\"cols\":99\x7d",
       some [("type", JVal.jstr "resize"), ("rows", JVal.jnum 31),
             ("cols", JVal.jnum 99)]⟩
      (⟨[9], (24, 80), [], [100]⟩ : OS) :=
  monitor_resize_honored ⟨some 9, some 100, none⟩
    ⟨"\x7b\"type\":\"resize\",\"rows\":31,\"cols\":99\x7d",
     some [("type", JVal.jstr "resize"), ("rows", JVal.jnum 31),
           ("cols", JVal.jnum 99)]⟩
    [("type", JVal.jstr "resize"), ("rows", JVal.jnum 31),
     ("cols", JVal.jnum 99)]
    ⟨[9], (24, 80), [], [100]⟩ rfl rfl

/-- Claim C7 (confirmed): the child branch of `spawn` makes the
attach-vs-create decision once: with a (truthy) session name and tmux
available it execs `tmux attach-session -t name` when the backing
session exists and `tmux new-session -s name` otherwise; with tmux
unavailable, or with no session name, it execs the plain shell. -/
theorem spawn_attach_vs_create (shell name : String) (avail : Bool)
    (has_session : String → Bool) (hname : name ≠ "") :
    (avail = true → has_session name = true →
      spawn_child_exec shell (some name) avail has_session =
        ChildAction.execvpe "tmux" ["tmux", "attach-session", "-t", name]) ∧
    (avail = true → has_session name = false →
      spawn_child_exec shell (some name) avail has_session =
        ChildAction.execvpe "tmux" ["tmux", "new-session", "-s", name]) ∧
    (avail = false →
      spawn_child_exec shell (some name) avail has_session =
        ChildAction.execvpe shell [shell]) ∧
    spawn_child_exec shell none avail has_session =
      ChildAction.execvpe shell [shell] := by
  refine ⟨?_, ?_, ?_, rfl⟩
  · intro ha hs
    simp [spawn_child_exec, hname, ha, hs]
  · intro ha hs
    simp [spawn_child_exec, hname, ha, hs]
  · intro ha
    simp [spawn_child_exec, ha]

/-- Claim C7, witness: with tmux available and session `work` already
existing, spawn execs the attach command. -/
theorem spawn_attach_vs_create_witness :
    spawn_child_exec "/bin/bash" (some "work") true (fun s => s == "work") =
      ChildAction.execvpe "tmux" ["tmux", "attach-session", "-t", "work"] :=
  (spawn_attach_vs_create "/bin/bash" "work" true (fun s => s == "work")
    (by decide)).1 rfl (by decide)

/-- Claim C8 (confirmed): when `shutil.which` cannot resolve the
command, the `spawn_command` child prints a diagnostic and exits
immediately with status 1 (non-zero, distinguishable from success), and
never execs any program. -/
theorem spawn_command_not_found (command : String) (args : List String)
    (which : String → Option String) (h : which command = none) :
    spawn_command_child command args which =
      ChildAction.exited 1
        ("Error: " ++ command ++ " not found. Install it first.") ∧
    ∀ p argv, spawn_command_child command args which ≠
      ChildAction.execvpe p argv := by
  constructor
  · simp [spawn_command_child, h]
  · intro p argv hcon
    simp [spawn_command_child, h] at hcon

/-- Claim C8, witness: the monitor command `gpustat` missing from the
search path makes the child exit with status 1 and a diagnostic. -/
theorem spawn_command_not_found_witness :
    spawn_command_child "gpustat" ["-f", "-c", "--watch"] (fun _ => none) =
      ChildAction.exited 1 "Error: gpustat not found. Install it first." :=
  (spawn_command_not_found "gpustat" ["-f", "-c", "--watch"]
    (fun _ => none) rfl).1

/-- Claim C9 (confirmed): `load_server_state` is total (it returns a
`JVal`, never an exception value) and on every failing filesystem
condition — state file absent, `open` failing, or `json.load` failing —
it returns the fixed default state of line 85. -/
theorem load_state_defaults_on_failure (c : FsCond)
    (h : c = FsCond.absent ∨ c = FsCond.openFails ∨ c = FsCond.parseFails) :
    load_server_state c = defaultState := by
  rcases h with h | h | h <;> subst h <;> rfl

/-- Claim C9, witness at the invalid-JSON condition. -/
theorem load_state_defaults_on_failure_witness :
    load_server_state FsCond.parseFails = defaultState :=
  load_state_defaults_on_failure FsCond.parseFails (Or.inr (Or.inr rfl))

/-- Claim C10 (confirmed): a resize control message that omits `rows` or
`cols` is applied with per-field defaults — `data.get('rows', 24)` and
`data.get('cols', 80)` default independently — and raises no error, in
either mode.  Each of `rows`/`cols` is either absent from the object (and
takes its default of 24 resp. 80) or carries an in-range integer; the
resulting window size is exactly the pair so obtained. -/
theorem resize_missing_fields_defaults (g : Bool) (t : WebTerminal) (fd : Int)
    (m : Msg) (data : List (String × JVal)) (os : OS) (rows cols : Int)
    (hd : decode_msg m = .ok data) (hty : msgType data = some "resize")
    (hrows : data.lookup "rows" = none ∧ rows = 24 ∨
             data.lookup "rows" = some (JVal.jnum rows))
    (hcols : data.lookup "cols" = none ∧ cols = 80 ∨
             data.lookup "cols" = some (JVal.jnum cols))
    (hr : 0 ≤ rows ∧ rows ≤ 65535) (hc : 0 ≤ cols ∧ cols ≤ 65535)
    (hfd : t.master_fd = some fd) (hfd0 : fd ≠ 0) (hopen : fd ∈ os.openFds) :
    terminal_handler_step g t m os = .ok { os with winsize := (rows, cols) } := by
  have hjr : jGetD data "rows" (JVal.jnum 24) = JVal.jnum rows := by
    rcases hrows with ⟨h1, h2⟩ | h1
    · subst h2
      simp [jGetD, h1]
    · simp [jGetD, h1]
  have hjc : jGetD data "cols" (JVal.jnum 80) = JVal.jnum cols := by
    rcases hcols with ⟨h1, h2⟩ | h1
    · subst h2
      simp [jGetD, h1]
    · simp [jGetD, h1]
  have hpr : packH (JVal.jnum rows) = .ok rows := by
    simp [packH, hr.1, hr.2]
  have hpc : packH (JVal.jnum cols) = .ok cols := by
    simp [packH, hc.1, hc.2]
  unfold terminal_handler_step
  rw [hd]
  dsimp only
  rw [if_pos hty, hjr, hjc]
  unfold WebTerminal.resize
  rw [hfd]
  simp [hfd0, hpr, hpc, ioctlSetWinsize, hopen]

/-- Claim C10, witness: a resize message omitting only `rows` (with
`cols: 50`) is applied as `(24, 50)`, and one omitting only `cols` (with
`rows: 31`) is applied as `(31, 80)` — each absent field defaults
independently. -/
theorem resize_missing_fields_defaults_witness :
    terminal_handler_step true (⟨some 9, some 100, none⟩ : WebTerminal)
      ⟨"\x7b\"type\":\"resize\",\"cols\":50\x7d",
       some [("type", JVal.jstr "resize"), ("cols", JVal.jnum 50)]⟩
      (⟨[9], (50, 50), [], [100]⟩ : OS) =
      .ok ⟨[9], (24, 50), [], [100]⟩ ∧
    terminal_handler_step true (⟨some 9, some 100, none⟩ : WebTerminal)
      ⟨"\x7b\"type\":\"resize\",\"rows\":31\x7d",
       some [("type", JVal.jstr "resize"), ("rows", JVal.jnum 31)]⟩
      (⟨[9], (50, 50), [], [100]⟩ : OS) =
      .ok ⟨[9], (31, 80), [], [100]⟩ :=
  ⟨resize_missing_fields_defaults true ⟨some 9, some 100, none⟩ 9
    ⟨"\x7b\"type\":\"resize\",\"cols\":50\x7d",
     some [("type", JVal.jstr "resize"), ("cols", JVal.jnum 50)]⟩
    [("type", JVal.jstr "resize"), ("cols", JVal.jnum 50)]
    ⟨[9], (50, 50), [], [100]⟩ 24 50
    rfl rfl (Or.inl ⟨rfl, rfl⟩) (Or.inr rfl) (by decide) (by decide)
    rfl (by decide) (by decide),
   resize_missing_fields_defaults true ⟨some 9, some 100, none⟩ 9
    ⟨"\x7b\"type\":\"resize\",\"rows\":31\x7d",
     some [("type", JVal.jstr "resize"), ("rows", JVal.jnum 31)]⟩
    [("type", JVal.jstr "resize"), ("rows", JVal.jnum 31)]
    ⟨[9], (50, 50), [], [100]⟩ 31 80
    rfl rfl (Or.inr rfl) (Or.inl ⟨rfl, rfl⟩) (by decide) (by decide)
    rfl (by decide) (by decide)⟩

end RDock
